import Mathlib

set_option autoImplicit false

/-!
# A verification development for the `herd` KV-queue message router

This file gives a shallow embedding of the router's dispatch core
(`src/router.ts`), its helpers (`src/utils.ts`), the `Context` class
(`src/context.ts`) and the module-level registry (`src/mod.ts`), and proves
properties of the dispatch state machine, the enqueue envelope, route
matching and parameter decoding, the backoff schedule, and the
one-router-per-store registry.
-/

/-! ## JavaScript runtime values

A small model of the JavaScript values that can be delivered by the queue:
`undefined`, `null`, booleans, numbers, strings and plain objects (an ordered
list of string-keyed fields). -/

inductive Value where
  | undefined
  | null
  | bool (b : Bool)
  | num (n : Int)
  | str (s : String)
  | obj (fields : List (String × Value))
deriving Repr, Inhabited

/-- The JavaScript `typeof` operator on our value model.  Note the JavaScript
quirk `typeof null === "object"`. -/
def Value.typeOf : Value → String
  | .undefined => "undefined"
  | .null => "object"
  | .bool _ => "boolean"
  | .num _ => "number"
  | .str _ => "string"
  | .obj _ => "object"

/-- Whether `Value.null` (the JavaScript strict equality test `value === null`). -/
def Value.isNull : Value → Bool
  | .null => true
  | _ => false

/-- The JavaScript `in` operator restricted to own fields of a plain object. -/
def Value.hasKey (v : Value) (k : String) : Bool :=
  match v with
  | .obj fields => fields.any (fun f => f.1 == k)
  | _ => false

/-- Property access `v[k]`: the field's value, or `undefined` when absent or
when `v` is not an object. -/
def Value.getField (v : Value) (k : String) : Value :=
  match v with
  | .obj fields =>
    match fields.find? (fun f => f.1 == k) with
    | some f => f.2
    | none => Value.undefined
  | _ => Value.undefined

/-! ## `assertIsMessage` (src/utils.ts)

The shape check the router runs on every delivered value.  The source throws
`Error` objects; we model the outcome as `Except` carrying the error
message. -/

/-- Embedding of `assertIsMessage` from `src/utils.ts`: the value must be a
non-null object, its `path` a string, its `body` key present, and its
`headers` of `typeof` `"object"`. -/
def assertIsMessage (value : Value) : Except String Unit :=
  if value.typeOf != "object" || value.isNull then
    Except.error "Message must be an object."
  else if !(value.hasKey "path") || (value.getField "path").typeOf != "string" then
    Except.error "Message must have a string path."
  else if !(value.hasKey "body") then
    Except.error "Message must have a body."
  else if !(value.hasKey "headers") || (value.getField "headers").typeOf != "object" then
    Except.error "Message must have headers."
  else
    Except.ok ()

/-- The `path` of a well-formed message (`message.path` after
`assertIsMessage` has succeeded). -/
def messagePath (v : Value) : String :=
  match v.getField "path" with
  | .str s => s
  | _ => ""

/-! ## The dispatch handler (`Router.#handler`, src/router.ts)

For the dispatch claims a route is observed through two capabilities: its
`matches` test on a path, and its `handle` invocation which may fail (a model
of the bound handler throwing, synchronously or after awaiting).  Dispatch
returns the settled outcome together with the ordered trace of observable
events: which routes had `matches` tried (with the result), which had
`handle` invoked, and which log lines were emitted. -/

structure MRoute where
  matchesPath : String → Bool
  handle : String → Value → Value → Except String Unit

/-- The ways the dispatch handler can fail (propagate an error to the queue). -/
inductive DispatchError where
  | malformedMessage (msg : String)
  | noRouteMatched
  | handlerFailure (err : String)
deriving Repr, DecidableEq

/-- Observable events of one dispatch, in order. -/
inductive Event where
  | matchTried (i : Nat) (result : Bool)
  | handled (i : Nat)
  | warned (msg : String)
  | infoLogged (msg : String)
deriving Repr, DecidableEq

/-- The `for (const route of this.#routes.values())` loop of `Router.#handler`:
try each route's `matches` in order; on the first success invoke `handle` and
stop (propagating its failure, after an info log, unchanged); if the list is
exhausted, log a warning and fail exactly when `rejectUnmatched` is set. -/
def dispatchLoop (rejectUnmatched : Bool) (path : String) (body headers : Value) :
    List MRoute → Nat → Except DispatchError Unit × List Event
  | [], _ =>
    ((if rejectUnmatched then Except.error DispatchError.noRouteMatched else Except.ok ()),
      [Event.warned "No route matched message"])
  | r :: rest, i =>
    if r.matchesPath path then
      match r.handle path body headers with
      | Except.ok _ => (Except.ok (), [Event.matchTried i true, Event.handled i])
      | Except.error e =>
        (Except.error (DispatchError.handlerFailure e),
          [Event.matchTried i true, Event.handled i,
            Event.infoLogged "Handler failed to handle message"])
    else
      let res := dispatchLoop rejectUnmatched path body headers rest (i + 1)
      (res.1, Event.matchTried i false :: res.2)

/-- Embedding of `Router.#handler`: validate the delivered value (on failure
warn, then fail exactly when `rejectForeign` is set), otherwise run the
route loop. -/
def routerHandler (rejectForeign rejectUnmatched : Bool) (routes : List MRoute)
    (message : Value) : Except DispatchError Unit × List Event :=
  match assertIsMessage message with
  | Except.error e =>
    ((if rejectForeign then Except.error (DispatchError.malformedMessage e) else Except.ok ()),
      [Event.warned e])
  | Except.ok _ =>
    dispatchLoop rejectUnmatched (messagePath message) (message.getField "body")
      (message.getField "headers") routes 0

/-! ## Helper lemmas about the dispatch loop -/

/-- If every route in the list fails to match, the loop warns and the outcome
is governed by `rejectUnmatched`. -/
theorem dispatchLoop_no_match (ru : Bool) (path : String) (body headers : Value) :
    ∀ (routes : List MRoute) (i : Nat), (∀ r ∈ routes, r.matchesPath path = false) →
    dispatchLoop ru path body headers routes i =
      ((if ru then Except.error DispatchError.noRouteMatched else Except.ok ()),
        (List.range routes.length).map (fun j => Event.matchTried (i + j) false) ++
          [Event.warned "No route matched message"]) := by
  intro routes
  induction routes with
  | nil => intro i _; simp [dispatchLoop]
  | cons r rest ih =>
    intro i h
    have hr : r.matchesPath path = false := h r (List.mem_cons_self r rest)
    have hrest : ∀ q ∈ rest, q.matchesPath path = false := fun q hq => h q (List.mem_cons_of_mem r hq)
    simp only [dispatchLoop, hr, Bool.false_eq_true, if_false, ih (i + 1) hrest]
    have hfun : ((fun j => Event.matchTried (i + j) false) ∘ Nat.succ) =
        (fun j => Event.matchTried (i + 1 + j) false) := by
      funext j
      simp only [Function.comp_apply]
      congr 1
      omega
    simp [List.range_succ_eq_map, hfun]

/-- If the first `i` routes fail to match and the `i`-th matches, the loop
reaches exactly route `i`: the trace records the failed tries, then the
successful try and the `handle` invocation, and the outcome is the handler
outcome (failures wrapped as `handlerFailure`, after an info log). -/
theorem dispatchLoop_reaches (ru : Bool) (path : String) (body headers : Value) :
    ∀ (routes : List MRoute) (start i : Nat) (hi : i < routes.length),
    (∀ j (hj : j < routes.length), j < i → (routes.get ⟨j, hj⟩).matchesPath path = false) →
    (routes.get ⟨i, hi⟩).matchesPath path = true →
    dispatchLoop ru path body headers routes start =
      (match (routes.get ⟨i, hi⟩).handle path body headers with
        | Except.ok _ =>
          (Except.ok (),
            (List.range i).map (fun j => Event.matchTried (start + j) false) ++
              [Event.matchTried (start + i) true, Event.handled (start + i)])
        | Except.error e =>
          (Except.error (DispatchError.handlerFailure e),
            (List.range i).map (fun j => Event.matchTried (start + j) false) ++
              [Event.matchTried (start + i) true, Event.handled (start + i),
                Event.infoLogged "Handler failed to handle message"])) := by
  intro routes
  induction routes with
  | nil => intro start i hi; exact absurd hi (by simp)
  | cons r rest ih =>
    intro start i hi hbefore hmatch
    cases i with
    | zero =>
      have hr : r.matchesPath path = true := hmatch
      simp only [dispatchLoop, hr, if_true]
      cases hh : r.handle path body headers with
      | ok u => cases u; simp [hh, List.get]
      | error e => simp [hh, List.get]
    | succ i' =>
      have hr : r.matchesPath path = false := hbefore 0 (by simp) (Nat.succ_pos i')
      have hi' : i' < rest.length := Nat.lt_of_succ_lt_succ hi
      have hbefore' : ∀ j (hj : j < rest.length), j < i' →
          (rest.get ⟨j, hj⟩).matchesPath path = false := by
        intro j hj hji
        exact hbefore (j + 1) (Nat.succ_lt_succ hj) (Nat.succ_lt_succ hji)
      have hmatch' : (rest.get ⟨i', hi'⟩).matchesPath path = true := hmatch
      simp only [dispatchLoop, hr, Bool.false_eq_true, if_false]
      rw [ih (start + 1) i' hi' hbefore' hmatch']
      have hfun : ((fun j => Event.matchTried (start + j) false) ∘ Nat.succ) =
          (fun j => Event.matchTried (start + 1 + j) false) := by
        funext j
        simp only [Function.comp_apply]
        congr 1
        omega
      have hrange : (List.range (i' + 1)).map (fun j => Event.matchTried (start + j) false) =
          Event.matchTried start false ::
            (List.range i').map (fun j => Event.matchTried (start + 1 + j) false) := by
        rw [List.range_succ_eq_map, List.map_cons, List.map_map, hfun]
        simp
      have harith1 : start + (i' + 1) = start + 1 + i' := by omega
      cases hh : (rest.get ⟨i', hi'⟩).handle path body headers with
      | ok u =>
        cases u
        simp only [List.get, hh, hrange, harith1, List.cons_append]
      | error e =>
        simp only [List.get, hh, hrange, harith1, List.cons_append]

/-! ## Concrete routes and messages used by witnesses -/

/-- A route that matches no path. -/
def routeNone : MRoute :=
  { matchesPath := fun _ => false, handle := fun _ _ _ => Except.ok () }

/-- A route matching exactly the path `/x` whose handler succeeds. -/
def routeOk : MRoute :=
  { matchesPath := fun p => p == "/x", handle := fun _ _ _ => Except.ok () }

/-- A route matching every path whose handler fails. -/
def routeFail : MRoute :=
  { matchesPath := fun _ => true, handle := fun _ _ _ => Except.error "boom" }

/-- A well-formed message with path `/x`. -/
def msgSimple : Value :=
  Value.obj [("path", Value.str "/x"), ("body", Value.num 1), ("headers", Value.obj [])]

/-- C1: for every delivered value, the dispatch handler logs a warning whenever
the value fails the `Message` shape check or no registered route matches its
path; in the shape-failure case it propagates an error exactly when
`rejectForeign` is true and returns successfully when it is false, and in the
no-match case it propagates an error exactly when `rejectUnmatched` is true
and returns successfully when it is false. -/
theorem routerHandler_policy_flags (rf ru : Bool) (routes : List MRoute) (v : Value) :
    (∀ e, assertIsMessage v = Except.error e →
      Event.warned e ∈ (routerHandler rf ru routes v).2 ∧
      (routerHandler rf ru routes v).1 =
        (if rf then Except.error (DispatchError.malformedMessage e) else Except.ok ())) ∧
    (assertIsMessage v = Except.ok () →
      (∀ r ∈ routes, r.matchesPath (messagePath v) = false) →
      Event.warned "No route matched message" ∈ (routerHandler rf ru routes v).2 ∧
      (routerHandler rf ru routes v).1 =
        (if ru then Except.error DispatchError.noRouteMatched else Except.ok ())) := by
  constructor
  · intro e he
    simp [routerHandler, he]
  · intro hok hnone
    simp only [routerHandler, hok]
    rw [dispatchLoop_no_match ru _ _ _ routes 0 hnone]
    simp

/-- Witness for C1 at concrete inputs: a non-object delivered value with
`rejectForeign` on warns and fails, and a well-formed `/x` message with no
routes and `rejectUnmatched` off warns and settles successfully. -/
theorem routerHandler_policy_flags_witness :
    (Event.warned "Message must be an object." ∈
        (routerHandler true true [] (Value.str "not a message")).2 ∧
      (routerHandler true true [] (Value.str "not a message")).1 =
        Except.error (DispatchError.malformedMessage "Message must be an object.")) ∧
    (Event.warned "No route matched message" ∈
        (routerHandler false false [] msgSimple).2 ∧
      (routerHandler false false [] msgSimple).1 = Except.ok ()) := by
  refine ⟨?_, ?_⟩
  · have h := (routerHandler_policy_flags true true [] (Value.str "not a message")).1
      "Message must be an object." rfl
    simpa using h
  · have h := (routerHandler_policy_flags false false [] msgSimple).2 rfl
      (fun r hr => absurd hr (List.not_mem_nil r))
    simpa using h

/-- C2: for a well-formed delivered message, the dispatch handler tries routes
in mapping order, invokes `handle` only on the first route whose match test
succeeds, and when that handler completes successfully the full trace is
exactly the failed tries before it, the successful try, and that one `handle`:
no later route's match test or handler is ever invoked, even if it would also
match. -/
theorem routerHandler_first_match_wins (rf ru : Bool) (routes : List MRoute) (v : Value)
    (hv : assertIsMessage v = Except.ok ()) (i : Nat) (hi : i < routes.length)
    (hbefore : ∀ j (hj : j < routes.length), j < i →
      (routes.get ⟨j, hj⟩).matchesPath (messagePath v) = false)
    (hmatch : (routes.get ⟨i, hi⟩).matchesPath (messagePath v) = true)
    (hok : (routes.get ⟨i, hi⟩).handle (messagePath v) (v.getField "body")
      (v.getField "headers") = Except.ok ()) :
    routerHandler rf ru routes v =
      (Except.ok (), (List.range i).map (fun j => Event.matchTried j false) ++
        [Event.matchTried i true, Event.handled i]) := by
  simp only [routerHandler, hv]
  rw [dispatchLoop_reaches ru _ _ _ routes 0 i hi hbefore hmatch, hok]
  simp

/-- Witness for C2 at a concrete input: three routes, where the second is the
first to match `/x` and a later catch-all route also matches; the trace shows
the catch-all's match test and handler are never invoked. -/
theorem routerHandler_first_match_wins_witness :
    routerHandler true true [routeNone, routeOk, routeFail] msgSimple =
      (Except.ok (), [Event.matchTried 0 false, Event.matchTried 1 true, Event.handled 1]) := by
  have h := routerHandler_first_match_wins true true [routeNone, routeOk, routeFail] msgSimple
    rfl 1 (by decide)
    (by
      intro j hj hji
      have hj0 : j = 0 := by omega
      subst hj0
      rfl)
    rfl rfl
  simpa using h

/-- C3: when the first matching route's handler fails, the dispatch handler
logs at info level and propagates that same failure, for every combination of
the `rejectForeign` and `rejectUnmatched` flags: handler failures are never
converted to silent success. -/
theorem routerHandler_failure_propagates (rf ru : Bool) (routes : List MRoute) (v : Value)
    (hv : assertIsMessage v = Except.ok ()) (i : Nat) (hi : i < routes.length)
    (hbefore : ∀ j (hj : j < routes.length), j < i →
      (routes.get ⟨j, hj⟩).matchesPath (messagePath v) = false)
    (hmatch : (routes.get ⟨i, hi⟩).matchesPath (messagePath v) = true)
    (e : String)
    (hfail : (routes.get ⟨i, hi⟩).handle (messagePath v) (v.getField "body")
      (v.getField "headers") = Except.error e) :
    (routerHandler rf ru routes v).1 = Except.error (DispatchError.handlerFailure e) ∧
    Event.infoLogged "Handler failed to handle message" ∈ (routerHandler rf ru routes v).2 := by
  simp only [routerHandler, hv]
  rw [dispatchLoop_reaches ru _ _ _ routes 0 i hi hbefore hmatch, hfail]
  simp

/-- Witness for C3 at a concrete input: a failing handler on the matching
route propagates `boom` even with both policy flags off. -/
theorem routerHandler_failure_propagates_witness :
    (routerHandler false false [routeFail] msgSimple).1 =
      Except.error (DispatchError.handlerFailure "boom") ∧
    Event.infoLogged "Handler failed to handle message" ∈
      (routerHandler false false [routeFail] msgSimple).2 := by
  have h := routerHandler_failure_propagates false false [routeFail] msgSimple rfl 0
    (by decide) (by intro j hj hji; exact absurd hji (Nat.not_lt_zero j)) rfl "boom" rfl
  simpa using h

/-! ## The backoff schedule (src/utils.ts)

`Math.random()` draws are passed explicitly: `rand i` is the value of the
`i`-th draw, a rational in `[0, 1)`. -/

/-- The fixed base schedule `BACKOFF_SCHEDULE` from `src/utils.ts`. -/
def BACKOFF_SCHEDULE : List Int := [1000, 2000, 4000, 8000, 16000]

/-- `getRandomMilliseconds` from `src/utils.ts`:
`Math.floor(Math.random() * (1000 - 1 + 1) + 1)`, with the `Math.random()`
draw `u` passed explicitly. -/
def getRandomMilliseconds (u : ℚ) : Int := ⌊u * (1000 - 1 + 1) + 1⌋

/-- `getBackoffSchedule` from `src/utils.ts`: each base entry incremented by
an independently drawn jitter (the `i`-th entry uses the `i`-th draw). -/
def getBackoffSchedule (rand : Nat → ℚ) : List Int :=
  List.zipWith (fun delay i => delay + getRandomMilliseconds (rand i))
    BACKOFF_SCHEDULE (List.range BACKOFF_SCHEDULE.length)

/-! ## Router construction and `enqueue` (src/router.ts)

KV keys are lists of key parts (strings or numbers); `Date.now()` is passed
to `enqueue` explicitly as the timestamp `now` captured at enqueue time. -/

inductive KeyPart where
  | str (s : String)
  | num (n : Int)
deriving Repr, DecidableEq

abbrev KvKey := List KeyPart

/-- `DEFAULT_DLQ_PREFIX` from `src/router.ts`. -/
def DEFAULT_DLQ_PREFIX : KvKey := [KeyPart.str "herd", KeyPart.str "dlq"]

/-- `RouterOptions` from `src/router.ts`.  `none` models an absent (or
`undefined`-valued) option; `backoffSchedulePresent` models the
`"backoffSchedule" in options` key-presence test, which JavaScript
distinguishes from the value being `undefined`. -/
structure RouterOptionsM where
  enabledDlq : Option Bool := none
  dlqPrefix : Option KvKey := none
  delay : Option Int := none
  backoffSchedulePresent : Bool := false
  backoffSchedule : Option (List Int) := none
  rejectForeign : Option Bool := none
  rejectUnmatched : Option Bool := none
deriving Repr

/-- The private fields of a constructed `Router`. -/
structure RouterM where
  dlqPrefix : Option KvKey := none
  backoffSchedule : Option (List Int) := none
  delay : Option Int := none
  rejectForeign : Bool := true
  rejectUnmatched : Bool := true
deriving Repr

/-- The `Router` constructor from `src/router.ts`: destructure the options
with defaults (`dlqPrefix = DEFAULT_DLQ_PREFIX`, `enabledDlq = false`,
`rejectForeign = true`, `rejectUnmatched = true`); take the backoff schedule
from the options when the key is present, else draw a fresh jittered
schedule; set `#dlqPrefix` only when `enabledDlq`. -/
def routerConstruct (options : RouterOptionsM) (rand : Nat → ℚ) : RouterM :=
  { dlqPrefix :=
      if options.enabledDlq.getD false then some (options.dlqPrefix.getD DEFAULT_DLQ_PREFIX)
      else none
    backoffSchedule :=
      if options.backoffSchedulePresent then options.backoffSchedule
      else some (getBackoffSchedule rand)
    delay := options.delay
    rejectForeign := options.rejectForeign.getD true
    rejectUnmatched := options.rejectUnmatched.getD true }

/-- `EnqueueInit` from `src/types.ts`. -/
structure EnqueueInitM where
  body : Option Value := none
  headers : Option (List (String × String)) := none
  delay : Option Int := none
  keysIfUndelivered : Option (List KvKey) := none
  backoffSchedule : Option (List Int) := none

/-- The arguments `Router.enqueue` hands to `Deno.Kv.enqueue`: the message
envelope and the delivery options. -/
structure EnqueueCall where
  value : Value
  backoffSchedule : Option (List Int)
  keysIfUndelivered : List KvKey
  delay : Option Int
deriving Repr

/-- `Router.enqueue` from `src/router.ts`: destructure the init with defaults
(`headers = {}`, `backoffSchedule = this.#backoffSchedule`,
`keysIfUndelivered = []`, `delay = this.#delay`), prepend the DLQ key
`[...this.#dlqPrefix, Date.now()]` when the DLQ prefix is set, and delegate
`{ path, body, headers }` with those options.  `now` is the `Date.now()`
timestamp captured at enqueue time. -/
def routerEnqueue (r : RouterM) (path : String) (init : EnqueueInitM) (now : Int) :
    EnqueueCall :=
  let body := init.body.getD Value.undefined
  let headers := init.headers.getD []
  let backoffSchedule := match init.backoffSchedule with
    | some s => some s
    | none => r.backoffSchedule
  let kIU := init.keysIfUndelivered.getD []
  let delay := match init.delay with
    | some d => some d
    | none => r.delay
  let keysIfUndelivered := match r.dlqPrefix with
    | some dlq => (dlq ++ [KeyPart.num now]) :: kIU
    | none => kIU
  { value := Value.obj [("path", Value.str path), ("body", body),
      ("headers", Value.obj (headers.map (fun p => (p.1, Value.str p.2))))]
    backoffSchedule := backoffSchedule
    keysIfUndelivered := keysIfUndelivered
    delay := delay }

/-! ## The `Context` class (src/context.ts) -/

/-- The object-spread `{ ...headers }` used by the `Context` constructor: the
own fields of an object; spreading `null` or `undefined` contributes no
fields.  (`Context` only ever receives a `headers` value of `typeof`
`"object"`, i.e. an object or `null` in this model.) -/
def spreadFields : Value → List (String × Value)
  | .obj fields => fields
  | _ => []

/-- The observable state of a constructed `Context`. -/
structure ContextM where
  path : String
  body : Value
  headers : List (String × Value)
  params : List (String × String)

/-- The `Context` constructor from `src/context.ts`: stores path, body and
params as given and copies `headers` by spreading. -/
def contextConstruct (path : String) (body : Value) (headers : Value)
    (params : List (String × String)) : ContextM :=
  { path := path, body := body, headers := spreadFields headers, params := params }

/-- C4: the dead-letter key list `Router.enqueue` passes to the store is
`[dlqPrefix ++ [now], ...init.keysIfUndelivered]` when the DLQ is enabled
(its first element the DLQ key with the enqueue-time timestamp appended to
the configured prefix) and `init.keysIfUndelivered` (defaulting to `[]`)
when it is disabled. -/
theorem enqueue_keysIfUndelivered (options : RouterOptionsM) (rand : Nat → ℚ)
    (path : String) (init : EnqueueInitM) (now : Int) :
    (routerEnqueue (routerConstruct options rand) path init now).keysIfUndelivered =
      if options.enabledDlq.getD false then
        ((options.dlqPrefix.getD DEFAULT_DLQ_PREFIX) ++ [KeyPart.num now]) ::
          init.keysIfUndelivered.getD []
      else
        init.keysIfUndelivered.getD [] := by
  by_cases h : options.enabledDlq.getD false <;>
    simp [routerEnqueue, routerConstruct, h]

/-- C9: the envelope `{ path, body, headers }` that `Router.enqueue` hands to
the store always passes `assertIsMessage`, for every path and every
`EnqueueInit` (including ones that omit `body` or `headers`): a message
enqueued through the router is never classified as foreign at dequeue time. -/
theorem enqueue_envelope_isMessage (r : RouterM) (path : String) (init : EnqueueInitM)
    (now : Int) :
    assertIsMessage (routerEnqueue r path init now).value = Except.ok () := rfl

/-- The jitter `getRandomMilliseconds` lies in `[1, 1000]` whenever the
`Math.random()` draw lies in `[0, 1)`. -/
theorem getRandomMilliseconds_bounds (u : ℚ) (h0 : 0 ≤ u) (h1 : u < 1) :
    1 ≤ getRandomMilliseconds u ∧ getRandomMilliseconds u ≤ 1000 := by
  unfold getRandomMilliseconds
  constructor
  · apply Int.le_floor.mpr
    push_cast
    nlinarith
  · have hlt : ⌊u * (1000 - 1 + 1) + 1⌋ < 1001 := by
      apply Int.floor_lt.mpr
      push_cast
      nlinarith
    omega

/-- C6: every schedule returned by `getBackoffSchedule` has length 5 with its
`i`-th element in `[base_i + 1, base_i + 1000]` for the base
`[1000, 2000, 4000, 8000, 16000]`; two calls (two independent draw streams)
return sequences of equal length built from the same base values. -/
theorem getBackoffSchedule_spec (r1 r2 : Nat → ℚ)
    (h1 : ∀ i, 0 ≤ r1 i ∧ r1 i < 1) (h2 : ∀ i, 0 ≤ r2 i ∧ r2 i < 1) :
    (getBackoffSchedule r1).length = 5 ∧
    (getBackoffSchedule r1).length = (getBackoffSchedule r2).length ∧
    ∀ i, i < 5 →
      BACKOFF_SCHEDULE.getD i 0 + 1 ≤ (getBackoffSchedule r1).getD i 0 ∧
      (getBackoffSchedule r1).getD i 0 ≤ BACKOFF_SCHEDULE.getD i 0 + 1000 ∧
      BACKOFF_SCHEDULE.getD i 0 + 1 ≤ (getBackoffSchedule r2).getD i 0 ∧
      (getBackoffSchedule r2).getD i 0 ≤ BACKOFF_SCHEDULE.getD i 0 + 1000 := by
  have he : ∀ rand : Nat → ℚ, getBackoffSchedule rand =
      [1000 + getRandomMilliseconds (rand 0), 2000 + getRandomMilliseconds (rand 1),
        4000 + getRandomMilliseconds (rand 2), 8000 + getRandomMilliseconds (rand 3),
        16000 + getRandomMilliseconds (rand 4)] := fun _ => rfl
  refine ⟨by simp [he], by simp [he], ?_⟩
  intro i hi
  obtain ⟨a0l, a0u⟩ := getRandomMilliseconds_bounds (r1 0) (h1 0).1 (h1 0).2
  obtain ⟨a1l, a1u⟩ := getRandomMilliseconds_bounds (r1 1) (h1 1).1 (h1 1).2
  obtain ⟨a2l, a2u⟩ := getRandomMilliseconds_bounds (r1 2) (h1 2).1 (h1 2).2
  obtain ⟨a3l, a3u⟩ := getRandomMilliseconds_bounds (r1 3) (h1 3).1 (h1 3).2
  obtain ⟨a4l, a4u⟩ := getRandomMilliseconds_bounds (r1 4) (h1 4).1 (h1 4).2
  obtain ⟨b0l, b0u⟩ := getRandomMilliseconds_bounds (r2 0) (h2 0).1 (h2 0).2
  obtain ⟨b1l, b1u⟩ := getRandomMilliseconds_bounds (r2 1) (h2 1).1 (h2 1).2
  obtain ⟨b2l, b2u⟩ := getRandomMilliseconds_bounds (r2 2) (h2 2).1 (h2 2).2
  obtain ⟨b3l, b3u⟩ := getRandomMilliseconds_bounds (r2 3) (h2 3).1 (h2 3).2
  obtain ⟨b4l, b4u⟩ := getRandomMilliseconds_bounds (r2 4) (h2 4).1 (h2 4).2
  interval_cases i <;> simp only [he, BACKOFF_SCHEDULE, List.getD] <;> norm_num <;> omega

/-- Witness for C6 at concrete draw streams (constant draws 1/2 and 1/3). -/
theorem getBackoffSchedule_spec_witness :
    (getBackoffSchedule (fun _ => 1/2)).length = 5 ∧
    (getBackoffSchedule (fun _ => 1/2)).length = (getBackoffSchedule (fun _ => 1/3)).length ∧
    1000 + 1 ≤ (getBackoffSchedule (fun _ => 1/2)).getD 0 0 ∧
    (getBackoffSchedule (fun _ => 1/2)).getD 0 0 ≤ 1000 + 1000 := by
  have h := getBackoffSchedule_spec (fun _ => 1/2) (fun _ => 1/3)
    (fun i => by norm_num) (fun i => by norm_num)
  obtain ⟨hl, hll, hb⟩ := h
  have hb0 := hb 0 (by norm_num)
  simp only [BACKOFF_SCHEDULE, List.getD] at hb0
  exact ⟨hl, hll, hb0.1, hb0.2.1⟩

/-- The delivered value of C10: a string `path`, a present `body`, and
`headers: null`. -/
def msgNullHeaders : Value :=
  Value.obj [("path", Value.str "/x"), ("body", Value.num 1), ("headers", Value.null)]

/-- C10: a delivered value whose `headers` is `null` but whose `path` is a
string and whose `body` key is present passes the shape check (because
`typeof null` is `"object"`) and is dispatched to the matching route rather
than rejected as foreign; the `Context` built from this message's components
exposes `headers` as an empty object, since the constructor copies headers by
spreading. -/
theorem nullHeaders_dispatched :
    assertIsMessage msgNullHeaders = Except.ok () ∧
    routerHandler true true [routeOk] msgNullHeaders =
      (Except.ok (), [Event.matchTried 0 true, Event.handled 0]) ∧
    (contextConstruct (messagePath msgNullHeaders) (msgNullHeaders.getField "body")
        (msgNullHeaders.getField "headers") []).headers = [] :=
  ⟨rfl, rfl, rfl⟩

/-! ## The route mapping (`Router.#routes`, a JavaScript `Map`) -/

/-- JavaScript `Map.prototype.set` (and object property assignment) on an
association list: replace the value in place when the key is already present,
keeping its original insertion position; otherwise append a new entry. -/
def assocSet {κ α : Type} [BEq κ] : List (κ × α) → κ → α → List (κ × α)
  | [], k, v => [(k, v)]
  | p :: rest, k, v => if p.1 == k then (k, v) :: rest else p :: assocSet rest k v

/-- `Map.prototype.get`: the value of the first entry with the key. -/
def assocGet {κ α : Type} [BEq κ] : List (κ × α) → κ → Option α
  | [], _ => none
  | p :: rest, k => if p.1 == k then some p.2 else assocGet rest k

/-- `Router.on` from `src/router.ts`:
`this.#routes.set(path, new Route(this, path, handler))`, with the compiled
route passed in. -/
def routerOn (routes : List (String × MRoute)) (path : String) (r : MRoute) :
    List (String × MRoute) := assocSet routes path r

/-- Setting a key makes it look up to the new value. -/
theorem assocGet_assocSet_same {κ α : Type} [BEq κ] [LawfulBEq κ]
    (m : List (κ × α)) (k : κ) (v : α) : assocGet (assocSet m k v) k = some v := by
  induction m with
  | nil => simp [assocSet, assocGet]
  | cons p rest ih =>
    cases h : p.1 == k with
    | true => simp [assocSet, assocGet, h]
    | false => simp [assocSet, assocGet, h, ih]

/-- Setting a key leaves other keys' lookups unchanged. -/
theorem assocGet_assocSet_ne {κ α : Type} [BEq κ] [LawfulBEq κ]
    (m : List (κ × α)) (k q : κ) (v : α) (hne : q ≠ k) :
    assocGet (assocSet m k v) q = assocGet m q := by
  have hqk : (k == q) = false := beq_eq_false_iff_ne.mpr (fun hkq => hne hkq.symm)
  induction m with
  | nil => simp [assocSet, assocGet, hqk]
  | cons p rest ih =>
    cases h : p.1 == k with
    | true =>
      have hp : p.1 = k := eq_of_beq h
      simp [assocSet, assocGet, h, hp, hqk]
    | false => simp [assocSet, assocGet, h, ih]

/-- Setting a key that is already present keeps the key sequence (hence the
iteration order) unchanged. -/
theorem assocSet_keys_of_mem {κ α : Type} [BEq κ] [LawfulBEq κ]
    (m : List (κ × α)) (k : κ) (v r : α) (h : assocGet m k = some r) :
    (assocSet m k v).map Prod.fst = m.map Prod.fst := by
  induction m with
  | nil => simp [assocGet] at h
  | cons p rest ih =>
    cases hpk : p.1 == k with
    | true =>
      have hp : p.1 = k := eq_of_beq hpk
      simp [assocSet, hpk, hp]
    | false =>
      simp only [assocGet, hpk, Bool.false_eq_true, if_false] at h
      simp [assocSet, hpk, ih h]

/-- C7: a later `Router.on` registration with the same literal pattern string
replaces the earlier route for that pattern (map semantics): the mapping's
key sequence is unchanged, the pattern now looks up the newer route, other
patterns are unaffected; and at dispatch time routes are tried in the order
the registrations currently exist in the mapping, so the first
currently-present route whose test matches the path wins. -/
theorem routerOn_replaces (m : List (String × MRoute)) (p : String) (r1 r2 : MRoute) :
    (routerOn (routerOn m p r1) p r2).map Prod.fst = (routerOn m p r1).map Prod.fst ∧
    assocGet (routerOn (routerOn m p r1) p r2) p = some r2 ∧
    (∀ q, q ≠ p → assocGet (routerOn (routerOn m p r1) p r2) q =
      assocGet (routerOn m p r1) q) ∧
    (∀ (rf ru : Bool) (v : Value), assertIsMessage v = Except.ok () →
      ∀ i (hi : i < ((routerOn (routerOn m p r1) p r2).map Prod.snd).length),
      (∀ j (hj : j < ((routerOn (routerOn m p r1) p r2).map Prod.snd).length), j < i →
        (((routerOn (routerOn m p r1) p r2).map Prod.snd).get ⟨j, hj⟩).matchesPath
          (messagePath v) = false) →
      (((routerOn (routerOn m p r1) p r2).map Prod.snd).get ⟨i, hi⟩).matchesPath
        (messagePath v) = true →
      (((routerOn (routerOn m p r1) p r2).map Prod.snd).get ⟨i, hi⟩).handle
        (messagePath v) (v.getField "body") (v.getField "headers") = Except.ok () →
      routerHandler rf ru ((routerOn (routerOn m p r1) p r2).map Prod.snd) v =
        (Except.ok (), (List.range i).map (fun j => Event.matchTried j false) ++
          [Event.matchTried i true, Event.handled i])) := by
  refine ⟨?_, ?_, ?_, ?_⟩
  · exact assocSet_keys_of_mem (routerOn m p r1) p r2 r1 (assocGet_assocSet_same m p r1)
  · exact assocGet_assocSet_same (routerOn m p r1) p r2
  · intro q hq
    exact assocGet_assocSet_ne (routerOn m p r1) p q r2 hq
  · intro rf ru v hv i hi hbefore hmatch hok
    simp only [routerHandler, hv]
    rw [dispatchLoop_reaches ru _ _ _ _ 0 i hi hbefore hmatch, hok]
    simp

/-- Witness for C7 at concrete inputs: registering `routeFail` and then
`routeOk` under the same pattern `/x` leaves one entry whose route is
`routeOk`, an unrelated pattern is unaffected, and dispatching `/x` runs the
replacement route's handler successfully. -/
theorem routerOn_replaces_witness :
    (routerOn (routerOn [] "/x" routeFail) "/x" routeOk).map Prod.fst =
      (routerOn [] "/x" routeFail).map Prod.fst ∧
    assocGet (routerOn (routerOn [] "/x" routeFail) "/x" routeOk) "/x" = some routeOk ∧
    assocGet (routerOn (routerOn [] "/x" routeFail) "/x" routeOk) "/y" =
      assocGet (routerOn [] "/x" routeFail) "/y" ∧
    routerHandler true true
        ((routerOn (routerOn [] "/x" routeFail) "/x" routeOk).map Prod.snd) msgSimple =
      (Except.ok (), [Event.matchTried 0 true, Event.handled 0]) := by
  obtain ⟨h1, h2, h3, h4⟩ := routerOn_replaces [] "/x" routeFail routeOk
  refine ⟨h1, h2, h3 "/y" (by decide), ?_⟩
  have h := h4 true true msgSimple rfl 0 (by decide)
    (fun j hj hji => absurd hji (Nat.not_lt_zero j)) rfl rfl
  simpa using h

/-! ## The module-level registry (src/mod.ts) -/

/-- The process state of `src/mod.ts`: the identity-keyed `routerMap` from
store handles to routers (store handles modelled by `Nat` identities), plus a
counter of `Router` constructions performed so far (so "no new router was
constructed" is observable). -/
structure RegistryState where
  routerMap : List (Nat × RouterM) := []
  constructions : Nat := 0
deriving Repr

/-- `setRouter` from `src/mod.ts`: construct a router (counted), store it
under the handle, and return it. -/
def setRouter (st : RegistryState) (db : Nat) (options : RouterOptionsM)
    (rand : Nat → ℚ) : RouterM × RegistryState :=
  let router := routerConstruct options rand
  (router,
    { routerMap := assocSet st.routerMap db router,
      constructions := st.constructions + 1 })

/-- `getRouter` from `src/mod.ts` (`init` merely delegates to it): warn when
the handle is already known and options were supplied; return the stored
router when present, else construct and store one (options defaulting to `{}`
in `setRouter`).  The third component is the list of warnings logged. -/
def getRouter (st : RegistryState) (db : Nat) (options : Option RouterOptionsM)
    (rand : Nat → ℚ) : RouterM × RegistryState × List String :=
  let warnings :=
    if (assocGet st.routerMap db).isSome && options.isSome then
      ["Router already initialized with options, ignoring."]
    else []
  match assocGet st.routerMap db with
  | some router => (router, st, warnings)
  | none =>
    let rs := setRouter st db (options.getD {}) rand
    (rs.1, rs.2, warnings)

/-- C8: when a router is already registered for a store handle, a second
`getRouter`/`init` call returns that identical stored router, leaves the
registry state unchanged (no new construction, the second call's options are
not applied), and logs the warning exactly when options were supplied to that
second call. -/
theorem getRouter_existing (st : RegistryState) (db : Nat) (r : RouterM)
    (h : assocGet st.routerMap db = some r) (options : Option RouterOptionsM)
    (rand : Nat → ℚ) :
    (getRouter st db options rand).1 = r ∧
    (getRouter st db options rand).2.1 = st ∧
    (getRouter st db options rand).2.2 =
      (if options.isSome then ["Router already initialized with options, ignoring."]
        else []) := by
  simp [getRouter, h]

/-- Witness for C8 at concrete inputs: after one `init` for handle `0`, a
second call with options returns the stored default-constructed router, the
state is unchanged, and exactly the one warning is logged. -/
theorem getRouter_existing_witness :
    (getRouter (setRouter {} 0 {} (fun _ => 0)).2 0
        (some { enabledDlq := some true }) (fun _ => 0)).1 =
      routerConstruct {} (fun _ => 0) ∧
    (getRouter (setRouter {} 0 {} (fun _ => 0)).2 0
        (some { enabledDlq := some true }) (fun _ => 0)).2.1 =
      (setRouter {} 0 {} (fun _ => 0)).2 ∧
    (getRouter (setRouter {} 0 {} (fun _ => 0)).2 0
        (some { enabledDlq := some true }) (fun _ => 0)).2.2 =
      ["Router already initialized with options, ignoring."] := by
  have h := getRouter_existing (setRouter {} 0 {} (fun _ => 0)).2 0
    (routerConstruct {} (fun _ => 0)) rfl (some { enabledDlq := some true }) (fun _ => 0)
  simpa using h

/-! ## URI component decoding and route parameter extraction -/

/-- The numeric value of a hexadecimal digit. -/
def hexDigit (c : Char) : Option Nat :=
  if '0' ≤ c ∧ c ≤ '9' then some (c.toNat - '0'.toNat)
  else if 'a' ≤ c ∧ c ≤ 'f' then some (c.toNat - 'a'.toNat + 10)
  else if 'A' ≤ c ∧ c ≤ 'F' then some (c.toNat - 'A'.toNat + 10)
  else none

/-- The UTF-8 bytes of a code point. -/
def utf8Bytes (n : Nat) : List Nat :=
  if n < 128 then [n]
  else if n < 2048 then [192 + n / 64, 128 + n % 64]
  else if n < 65536 then [224 + n / 4096, 128 + n / 64 % 64, 128 + n % 64]
  else [240 + n / 262144, 128 + n / 4096 % 64, 128 + n / 64 % 64, 128 + n % 64]

/-- Percent-unescaping: each `%` must be followed by two hexadecimal digits
and yields that byte; any other character contributes its UTF-8 bytes.
`none` models a `URIError` on a malformed (truncated or non-hex) escape. -/
def percentDecode : List Char → Option (List Nat)
  | [] => some []
  | '%' :: c1 :: c2 :: rest => do
    let hi ← hexDigit c1
    let lo ← hexDigit c2
    let bs ← percentDecode rest
    pure ((hi * 16 + lo) :: bs)
  | ['%'] => none
  | ['%', _] => none
  | c :: rest => do
    let bs ← percentDecode rest
    pure (utf8Bytes c.toNat ++ bs)

/-- UTF-8 decoding of a byte sequence into code points, rejecting truncated
and ill-formed sequences, overlong encodings, surrogates, and values beyond
the Unicode range.  `none` models a `URIError` on invalid UTF-8. -/
def utf8Decode : List Nat → Option (List Char)
  | [] => some []
  | b :: rest =>
    if b < 128 then
      (utf8Decode rest).map (fun cs => Char.ofNat b :: cs)
    else if b < 194 then none
    else if b < 224 then
      match rest with
      | b1 :: rest1 =>
        if 128 ≤ b1 ∧ b1 < 192 then
          (utf8Decode rest1).map (fun cs => Char.ofNat ((b - 192) * 64 + (b1 - 128)) :: cs)
        else none
      | [] => none
    else if b < 240 then
      match rest with
      | b1 :: b2 :: rest1 =>
        if (128 ≤ b1 ∧ b1 < 192) ∧ (128 ≤ b2 ∧ b2 < 192) ∧
            (b = 224 → 160 ≤ b1) ∧ (b = 237 → b1 < 160) then
          (utf8Decode rest1).map
            (fun cs => Char.ofNat ((b - 224) * 4096 + (b1 - 128) * 64 + (b2 - 128)) :: cs)
        else none
      | _ => none
    else if b < 245 then
      match rest with
      | b1 :: b2 :: b3 :: rest1 =>
        if (128 ≤ b1 ∧ b1 < 192) ∧ (128 ≤ b2 ∧ b2 < 192) ∧ (128 ≤ b3 ∧ b3 < 192) ∧
            (b = 240 → 144 ≤ b1) ∧ (b = 244 → b1 < 144) then
          (utf8Decode rest1).map
            (fun cs => Char.ofNat
              ((b - 240) * 262144 + (b1 - 128) * 4096 + (b2 - 128) * 64 + (b3 - 128)) :: cs)
        else none
      | _ => none
    else none

/-- Model of the ECMAScript `decodeURIComponent` builtin (a platform
function, not part of this repository): percent-unescape, then UTF-8 decode;
`none` models the thrown `URIError`. -/
def decodeURIComponentModel (text : String) : Option String :=
  (percentDecode text.data).bind (fun bs => (utf8Decode bs).map (fun cs => String.mk cs))

/-- `decodeComponent` from `src/utils.ts`: the infallible version of
`decodeURIComponent()`; the `try/catch` returns the input verbatim when
decoding fails. -/
def decodeComponent (text : String) : String :=
  match decodeURIComponentModel text with
  | some s => s
  | none => text

/-- A compiled route matcher (the result of `pathToRegexp` in the `Route`
constructor): the ordered parameter names `#keys`, and the compiled regular
expression modelled as a function from a path to the captured substrings
(`match.slice(1)`) on success. -/
structure RouteMatcher where
  keys : List String
  exec : String → Option (List String)

/-- The parameter-building loop of `Route.prototype.matches` in
`src/router.ts`: for each capture index `i` with a corresponding key,
`params[keys[i].name] = decodeComponent(captures[i])`; capture indices with
no key are skipped. -/
def buildParams (keys : List String) (captures : List String) :
    List (String × String) :=
  (List.range captures.length).foldl
    (fun params i =>
      match keys.get? i with
      | some k => assocSet params k (decodeComponent (captures.getD i ""))
      | none => params) []

/-- `Route.prototype.matches`: `none` when the regexp does not match (the
method returns `false`); on a match, the parameter mapping stored for the
next `handle()` call. -/
def routeMatches (r : RouteMatcher) (path : String) :
    Option (List (String × String)) :=
  (r.exec path).map (fun captures => buildParams r.keys captures)

/-- Every entry of `assocSet m k v` is an old entry or the new pair. -/
theorem mem_assocSet {κ α : Type} [BEq κ] (m : List (κ × α)) (k : κ) (v : α) :
    ∀ q ∈ assocSet m k v, q ∈ m ∨ q = (k, v) := by
  induction m with
  | nil =>
    intro q hq
    right
    simpa [assocSet] using hq
  | cons p rest ih =>
    intro q hq
    cases h : p.1 == k with
    | true =>
      simp only [assocSet, h, if_true] at hq
      rcases List.mem_cons.mp hq with h1 | h1
      · right; exact h1
      · left; exact List.mem_cons_of_mem p h1
    | false =>
      simp only [assocSet, h, Bool.false_eq_true, if_false] at hq
      rcases List.mem_cons.mp hq with h1 | h1
      · left; exact h1 ▸ List.mem_cons_self p rest
      · rcases ih q h1 with h2 | h2
        · left; exact List.mem_cons_of_mem p h2
        · right; exact h2

/-- Every entry of the parameter mapping comes from a capture index that has
a key, and carries that capture's decoded value. -/
theorem buildParams_mem (keys captures : List String) :
    ∀ kv ∈ buildParams keys captures, ∃ i, i < captures.length ∧
      keys.get? i = some kv.1 ∧ kv.2 = decodeComponent (captures.getD i "") := by
  have haux : ∀ (l : List Nat) (acc : List (String × String)),
      (∀ i ∈ l, i < captures.length) →
      (∀ kv ∈ acc, ∃ i, i < captures.length ∧ keys.get? i = some kv.1 ∧
        kv.2 = decodeComponent (captures.getD i "")) →
      ∀ kv ∈ l.foldl (fun params i =>
          match keys.get? i with
          | some k => assocSet params k (decodeComponent (captures.getD i ""))
          | none => params) acc,
        ∃ i, i < captures.length ∧ keys.get? i = some kv.1 ∧
          kv.2 = decodeComponent (captures.getD i "") := by
    intro l
    induction l with
    | nil => intro acc _ hacc kv hkv; exact hacc kv hkv
    | cons j l ih =>
      intro acc hl hacc kv hkv
      simp only [List.foldl_cons] at hkv
      cases hk : keys.get? j with
      | none =>
        simp only [hk] at hkv
        exact ih acc (fun i hi => hl i (List.mem_cons_of_mem j hi)) hacc kv hkv
      | some k =>
        simp only [hk] at hkv
        refine ih _ (fun i hi => hl i (List.mem_cons_of_mem j hi)) ?_ kv hkv
        intro kv2 hkv2
        rcases mem_assocSet acc k (decodeComponent (captures.getD j "")) kv2 hkv2 with h1 | h1
        · exact hacc kv2 h1
        · exact ⟨j, hl j (List.mem_cons_self j l), by rw [h1]; exact hk, by rw [h1]⟩
  intro kv hkv
  exact haux (List.range captures.length) []
    (fun i hi => List.mem_range.mp hi)
    (fun kv2 hkv2 => absurd hkv2 (List.not_mem_nil kv2))
    kv hkv

/-- C5: on every path on which `Route.matches` succeeds, each stored
parameter value equals the URI-decoded captured substring, with the raw
captured substring used verbatim exactly when decoding fails (the decoding
step never throws: `decodeComponent` totalizes `decodeURIComponent` with the
verbatim fallback), and capture indices with no corresponding named key
contribute no entry to the parameter mapping. -/
theorem routeMatches_params (r : RouteMatcher) (path : String)
    (captures : List String) (hexec : r.exec path = some captures) :
    routeMatches r path = some (buildParams r.keys captures) ∧
    (∀ kv ∈ buildParams r.keys captures, ∃ i, i < captures.length ∧
      r.keys.get? i = some kv.1 ∧
      kv.2 = (match decodeURIComponentModel (captures.getD i "") with
        | some s => s
        | none => captures.getD i "")) := by
  constructor
  · simp [routeMatches, hexec]
  · intro kv hkv
    rcases buildParams_mem r.keys captures kv hkv with ⟨i, hi, hk, hv⟩
    refine ⟨i, hi, hk, ?_⟩
    rw [hv]
    rfl

/-- A concrete matcher for the C5 witness: two named keys, three captures
(the third positional capture has no key), one capture with a well-formed
escape and one with a truncated escape. -/
def demoMatcher : RouteMatcher :=
  { keys := ["p", "q"],
    exec := fun path =>
      if path == "/demo" then some ["a%20b", "%E0%A4%A", "x"] else none }

/-- Witness for C5 at a concrete input: `a%20b` decodes to `a b`, the
truncated escape `%E0%A4%A` fails to decode and is stored verbatim, and the
keyless third capture contributes no entry. -/
theorem routeMatches_params_witness :
    routeMatches demoMatcher "/demo" = some [("p", "a b"), ("q", "%E0%A4%A")] ∧
    decodeURIComponentModel "%E0%A4%A" = none := by
  have h := routeMatches_params demoMatcher "/demo" ["a%20b", "%E0%A4%A", "x"] rfl
  refine ⟨?_, ?_⟩
  · rw [h.1]
    decide
  · decide
